import Mathlib

/-!
Shallow embedding of the chipy value model (`src/include/chipy/Value.h`).

The header defines:
  * the `ValueType` discriminant enum;
  * the abstract `Value` base (virtual `type`, `duplicate`, `bool_test`, …);
  * the `PlainValue<T, V>` template with `get`/`set`;
  * the concrete variants `BoolVal`, `StringVal`, `FloatVal`, `IntVal`, `Alias`;
  * `value_cast` (a checked dynamic cast);
  * comparison operators `>`, `>=`, `==` on values;
  * serialization `operator<<(BitStream&, ValuePtr)` and `read_value`.

Modelling conventions:
  * `int32_t` payloads are modelled as `Int`: the operations under verification
    (comparison, copy, serialization) perform no arithmetic, so no overflow
    reduction is ever needed.
  * `double` payloads are modelled as an opaque bit pattern (`Nat`): no operation
    in the header ever inspects a float payload, it is only stored and copied.
  * Composite variants (List, Dictionary, …) are declared in the enum but their
    classes live outside this header; they are carried as an opaque tag.
  * C++ exceptions (`value_exception`) become `Except` results; functions that
    mutate a by-reference `BitStream` return the stream state paired with the
    `Except` outcome, so the stream state at the moment of a throw is visible.
-/

namespace chipy

/-- The discriminant enum, in source order. -/
inductive ValueType
  | Bool
  | String
  | Integer
  | Float
  | DictItems
  | CppObject
  | Attribute
  | Builtin
  | List
  | Dictionary
  | Iterator
  | Tuple
  | Alias
  | Module
  | Function
deriving DecidableEq, Repr

/-- The variants whose concrete classes are *not* defined in `Value.h`
(they are opaque to this core: only their tag is defined here). -/
inductive OtherKind
  | DictItems
  | CppObject
  | Attribute
  | Builtin
  | List
  | Dictionary
  | Iterator
  | Tuple
  | Module
  | Function
deriving DecidableEq, Repr

/-- The discriminant the corresponding concrete class reports. -/
def OtherKind.toValueType : OtherKind → ValueType
  | .DictItems => ValueType.DictItems
  | .CppObject => ValueType.CppObject
  | .Attribute => ValueType.Attribute
  | .Builtin => ValueType.Builtin
  | .List => ValueType.List
  | .Dictionary => ValueType.Dictionary
  | .Iterator => ValueType.Iterator
  | .Tuple => ValueType.Tuple
  | .Module => ValueType.Module
  | .Function => ValueType.Function

/-- A runtime value. Each constructor is one concrete class of the header,
carrying exactly the payload its `m_value` (or, for `Alias`, its two name
strings) holds. The construction invariant of the source — the discriminant
returned by `type()` agrees with the concrete class — is intrinsic here:
the constructor *is* the concrete class. -/
inductive Value
  | BoolVal (b : Bool)
  | StringVal (s : String)
  | IntVal (i : Int)
  | FloatVal (bits : Nat)
  | Alias (name as_name : String)
  | Other (k : OtherKind)
deriving DecidableEq, Repr

/-- Source `Value::type()`: each concrete class returns its fixed discriminant. -/
def Value.type : Value → ValueType
  | .BoolVal _ => ValueType.Bool
  | .StringVal _ => ValueType.String
  | .IntVal _ => ValueType.Integer
  | .FloatVal _ => ValueType.Float
  | .Alias _ _ => ValueType.Alias
  | .Other k => k.toValueType

/-- Source `Value::bool_test()`: the base class returns `true`; `BoolVal` overrides it
to return its payload and `IntVal` to return `m_value != 0`. -/
def Value.bool_test : Value → Bool
  | .BoolVal b => b
  | .IntVal i => i != 0
  | _ => true

/-- Source `operator==(const Value&, const Value&)`: both String — compare text;
both Integer — compare payloads; every other combination — false.
The two `type()` guards of the source select exactly the constructor pairs
matched here (discriminant and concrete class agree by construction). -/
def equals : Value → Value → Bool
  | .StringVal s1, .StringVal s2 => s1 == s2
  | .IntVal i1, .IntVal i2 => i1 == i2
  | _, _ => false

/-- Source `operator>(const Value&, const Value&)`: both Integer — compare with `>`;
otherwise false. -/
def greater_than : Value → Value → Bool
  | .IntVal i1, .IntVal i2 => i1 > i2
  | _, _ => false

/-- Source `operator>=(const Value&, const Value&)`: both Integer — compare with `>=`;
otherwise false. -/
def greater_or_equal : Value → Value → Bool
  | .IntVal i1, .IntVal i2 => i1 ≥ i2
  | _, _ => false

/-- Source `value_exception`: the error object thrown by the header, carrying `m_what`. -/
structure value_exception where
  what : String
deriving DecidableEq, Repr

/-- Source `value_cast<T>(val)`: `dynamic_pointer_cast` succeeds exactly when the
object's dynamic type is the requested concrete class, which by the
construction invariant is equivalent to the discriminant matching; on
success the very same handle is returned, on failure a `value_exception`
with text "Invalid value cast" is thrown. The target concrete class is
identified by its discriminant. -/
def value_cast (target : ValueType) (val : Value) : Except value_exception Value :=
  if val.type = target then Except.ok val
  else Except.error ⟨"Invalid value cast"⟩

/-- The template `PlainValue<value_type, value_type_val>`: a value holding a
single payload slot `m_value`. -/
structure PlainValue (value_type : Type) (value_type_val : ValueType) where
  m_value : value_type

/-- Source `PlainValue::type()`: returns the template's discriminant argument. -/
def PlainValue.type (_ : PlainValue value_type value_type_val) : ValueType :=
  value_type_val

/-- Source `PlainValue::get()`: read the payload slot. -/
def PlainValue.get (p : PlainValue value_type value_type_val) : value_type :=
  p.m_value

/-- Source `PlainValue::set(v)`: overwrite the payload slot. -/
def PlainValue.set (_ : PlainValue value_type value_type_val) (v : value_type) :
    PlainValue value_type value_type_val :=
  { m_value := v }

/-! ## The byte stream collaborator

Modelled from the spec: `BitStream` is defined outside this header. §6 of the
spec describes the interface the value model consumes: ordered primitive
write/read of the discriminant tag, 32-bit signed integers, and booleans,
with write order preserved on read (FIFO). We model the stream as the list
of primitives written so far together with a read cursor; a primitive read
outside the written data or against a mismatched primitive kind is outside
the modelled contract and yields `none`. -/

/-- One primitive item on the wire: a discriminant tag, a 32-bit signed
integer, or a boolean (the three primitives §6 lists). -/
inductive WireItem
  | tag (t : ValueType)
  | int32 (i : Int)
  | boolean (b : Bool)
deriving DecidableEq, Repr

/-- Modelled from the spec: the `BitStream` collaborator — written data plus
a read cursor (FIFO). -/
structure BitStream where
  data : List WireItem
  pos : Nat
deriving DecidableEq, Repr

/-- A fresh, empty stream. -/
def BitStream.empty : BitStream := ⟨[], 0⟩

/-- Modelled from the spec: `bs << x` appends one primitive to the stream. -/
def BitStream.push (bs : BitStream) (x : WireItem) : BitStream :=
  { bs with data := bs.data ++ [x] }

/-- Modelled from the spec: `bs >> (ValueType&)` reads the next primitive as a
discriminant tag and advances the cursor. -/
def BitStream.readTag (bs : BitStream) : Option (ValueType × BitStream) :=
  match bs.data.get? bs.pos with
  | some (WireItem.tag t) => some (t, { bs with pos := bs.pos + 1 })
  | _ => none

/-- Modelled from the spec: `bs >> (int32_t&)`. -/
def BitStream.readInt32 (bs : BitStream) : Option (Int × BitStream) :=
  match bs.data.get? bs.pos with
  | some (WireItem.int32 i) => some (i, { bs with pos := bs.pos + 1 })
  | _ => none

/-- Modelled from the spec: `bs >> (bool&)`. -/
def BitStream.readBoolean (bs : BitStream) : Option (Bool × BitStream) :=
  match bs.data.get? bs.pos with
  | some (WireItem.boolean b) => some (b, { bs with pos := bs.pos + 1 })
  | _ => none

/-- A value together with the arena (`MemoryManager`) it is owned by; arenas
are identified by a number. -/
structure OwnedValue where
  arena : Nat
  val : Value
deriving DecidableEq, Repr

/-- Modelled from the spec: `MemoryManager::create_integer(i32)` constructs an
`IntVal` with that payload, owned by this arena (§6). -/
def create_integer (mem : Nat) (i : Int) : OwnedValue :=
  ⟨mem, Value.IntVal i⟩

/-- Modelled from the spec: `MemoryManager::create_boolean(bool)` constructs a
`BoolVal` with that payload, owned by this arena (§6). -/
def create_boolean (mem : Nat) (b : Bool) : OwnedValue :=
  ⟨mem, Value.BoolVal b⟩

/-- Source `operator<<(BitStream &bs, ValuePtr val)`: switch on `val->type()`;
Integer — write the Integer tag then the `int32_t` payload; Bool — write the
Bool tag then the boolean payload; anything else — throw before touching the
stream. The result pairs the stream state on return (or at the throw, since
`bs` is passed by reference) with the outcome. -/
def write_value (bs : BitStream) (val : Value) : BitStream × Except value_exception Unit :=
  match val with
  | Value.IntVal i =>
    ((bs.push (WireItem.tag ValueType.Integer)).push (WireItem.int32 i), Except.ok ())
  | Value.BoolVal b =>
    ((bs.push (WireItem.tag ValueType.Bool)).push (WireItem.boolean b), Except.ok ())
  | _ => (bs, Except.error ⟨"Cannot serialize this type of value!"⟩)

/-- Source `read_value(BitStream &bs, MemoryManager &mem)`: read the discriminant
tag, dispatch on it; Integer — read an `int32_t` and `mem.create_integer`;
Bool — read a boolean and `mem.create_boolean`; anything else — throw, with
the tag already consumed. `none` marks a primitive read outside the stream
collaborator's modelled contract (underflow / mismatched primitive), which
the header leaves to the stream's own behavior. -/
def read_value (bs : BitStream) (mem : Nat) :
    Option (BitStream × Except value_exception OwnedValue) :=
  match bs.readTag with
  | none => none
  | some (t, bs1) =>
    match t with
    | ValueType.Integer =>
      match bs1.readInt32 with
      | none => none
      | some (i, bs2) => some (bs2, Except.ok (create_integer mem i))
    | ValueType.Bool =>
      match bs1.readBoolean with
      | none => none
      | some (b, bs2) => some (bs2, Except.ok (create_boolean mem b))
    | _ => some (bs1, Except.error ⟨"Cannot serialize this type of value!"⟩)

/-! ## Heap model for arena-scoped construction and duplication

`duplicate` allocates a fresh object (`new (mem) …`) carrying a copy of the
source's payload. To make independence (no aliasing of mutable storage)
expressible, values live in a heap of cells; a cell records the owning arena
(the `MemoryManager` passed at construction, kept by `Object`) and the
current payload state. Handles are cell indices. -/

/-- The heap: each cell is (owning arena, current value state). -/
structure Heap where
  cells : List (Nat × Value)
deriving DecidableEq, Repr

/-- Source `new (mem) C(mem, …)`: allocate a fresh cell owned by `mem`, returning
the new heap and the fresh handle. -/
def Heap.alloc (h : Heap) (mem : Nat) (v : Value) : Heap × Nat :=
  (⟨h.cells ++ [(mem, v)]⟩, h.cells.length)

/-- The value currently stored at a handle. -/
def Heap.valAt (h : Heap) (r : Nat) : Option Value :=
  (h.cells.get? r).map Prod.snd

/-- Source `Object::memory_manager()`: the arena recorded at construction. -/
def Heap.arenaAt (h : Heap) (r : Nat) : Option Nat :=
  (h.cells.get? r).map Prod.fst

/-- Source `PlainValue::set` through a typed handle: overwrite the payload state of
the cell. The C++ type system only admits a payload of the cell's own
`value_type`, so a write that would change the discriminant is not
representable; the model enforces this with a discriminant guard. -/
def Heap.setVal (h : Heap) (r : Nat) (v : Value) : Heap :=
  match h.cells.get? r with
  | some (a, old) => if old.type = v.type then ⟨h.cells.set r (a, v)⟩ else h
  | none => h

/-- The payload copy each concrete `duplicate` override performs:
`new (mem) C(mem, m_value)` for the scalar classes, `new (mem) Alias(mem,
name(), as_name())` for `Alias`. For the composite variants (whose classes
live outside this header) the copy is modelled from the spec: a deep copy
with identical discriminant and value-equal payload. -/
def dup_payload : Value → Value
  | Value.BoolVal b => Value.BoolVal b
  | Value.StringVal s => Value.StringVal s
  | Value.FloatVal f => Value.FloatVal f
  | Value.IntVal i => Value.IntVal i
  | Value.Alias n a => Value.Alias n a
  | Value.Other k => Value.Other k

/-- Source `Value::duplicate(MemoryManager &mem)`: allocate a fresh object in `mem`
holding a copy of the source payload. (On a dangling handle the model is the
identity; all claims quantify over live handles.) -/
def Heap.duplicate (h : Heap) (r : Nat) (mem : Nat) : Heap × Nat :=
  match h.valAt r with
  | some v => h.alloc mem (dup_payload v)
  | none => (h, r)

/-- Source `Value::duplicate()` (no argument): `duplicate(memory_manager())`. -/
def Heap.duplicateNoArg (h : Heap) (r : Nat) : Heap × Nat :=
  match h.arenaAt r with
  | some mem => h.duplicate r mem
  | none => (h, r)

/-! ## Theorems -/

/-- Bridging lemma: the `type()` guard of the source selects exactly the
constructor: a value reports `Integer` iff it is an `IntVal`. -/
theorem Value.type_eq_integer_iff (v : Value) :
    v.type = ValueType.Integer ↔ ∃ i, v = Value.IntVal i := by
  cases v
  case Other k => cases k <;> simp [Value.type, OtherKind.toValueType]
  all_goals simp [Value.type]

/-- Bridging lemma: a value reports `String` iff it is a `StringVal`. -/
theorem Value.type_eq_string_iff (v : Value) :
    v.type = ValueType.String ↔ ∃ s, v = Value.StringVal s := by
  cases v
  case Other k => cases k <;> simp [Value.type, OtherKind.toValueType]
  all_goals simp [Value.type]

/-- C1: `equals(a, b)` is true iff both are String with text-equal payloads
or both are Integer with equal payloads; every other combination (including
two Floats with equal payloads) gives false. -/
theorem C1_equals_characterization (a b : Value) :
    equals a b = true ↔
      ((∃ s, a = Value.StringVal s ∧ b = Value.StringVal s) ∨
       (∃ i, a = Value.IntVal i ∧ b = Value.IntVal i)) := by
  cases a <;> cases b <;> simp [equals]
  case StringVal.StringVal => exact eq_comm
  case IntVal.IntVal => exact eq_comm

/-- C9: the equality predicate is symmetric. -/
theorem C9_equals_symm (a b : Value) : equals a b = equals b a := by
  cases a <;> cases b <;> simp [equals]
  case StringVal.StringVal => exact eq_comm
  case IntVal.IntVal => exact eq_comm

/-- C5: `greater_than(a, b)` is true iff both are Integer with `a.get() >
b.get()`, and `greater_or_equal(a, b)` is true iff both are Integer with
`a.get() >= b.get()`; in every other combination both return false (they are
total functions: no error is raised). -/
theorem C5_ordering_characterization (a b : Value) :
    (greater_than a b = true ↔
      ∃ i j, a = Value.IntVal i ∧ b = Value.IntVal j ∧ i > j) ∧
    (greater_or_equal a b = true ↔
      ∃ i j, a = Value.IntVal i ∧ b = Value.IntVal j ∧ i ≥ j) := by
  constructor <;> cases a <;> cases b <;> simp [greater_than, greater_or_equal]

/-- C6: `bool_test` is true by default: a `BoolVal` returns its payload, an
`IntVal` returns whether its payload is non-zero, and every other variant
(String — even empty —, Float, Alias, and the composite variants)
unconditionally returns true. -/
theorem C6_bool_test_characterization :
    (∀ b, (Value.BoolVal b).bool_test = b) ∧
    (∀ i, ((Value.IntVal i).bool_test = true ↔ i ≠ 0)) ∧
    (∀ s, (Value.StringVal s).bool_test = true) ∧
    (∀ f, (Value.FloatVal f).bool_test = true) ∧
    (∀ n a, (Value.Alias n a).bool_test = true) ∧
    (∀ k, (Value.Other k).bool_test = true) := by
  refine ⟨fun b => rfl, fun i => ?_, fun s => rfl, fun f => rfl,
    fun n a => rfl, fun k => rfl⟩
  simp [Value.bool_test]

/-- C4: `value_cast<V>(v)` succeeds iff `v.type() == V`; on success the
returned handle is the very same one (so its payload is the payload used at
construction), and on mismatch it fails with the `InvalidCast` error
condition ("Invalid value cast") rather than returning a null handle. -/
theorem C4_value_cast_characterization (target : ValueType) (v : Value) :
    (value_cast target v = Except.ok v ↔ v.type = target) ∧
    (∀ w, value_cast target v = Except.ok w → w = v) ∧
    (v.type ≠ target →
      value_cast target v = Except.error ⟨"Invalid value cast"⟩) := by
  refine ⟨?_, ?_, ?_⟩
  · unfold value_cast
    split <;> simp_all
  · intro w hw
    unfold value_cast at hw
    split at hw <;> simp_all
  · intro h
    simp [value_cast, h]

/-- Witness for C4: casting an `IntVal` to `StringVal` fails with the
`InvalidCast` condition. -/
theorem C4_value_cast_witness :
    value_cast ValueType.String (Value.IntVal 3) =
      Except.error ⟨"Invalid value cast"⟩ :=
  (C4_value_cast_characterization ValueType.String (Value.IntVal 3)).2.2
    (by decide)

/-- C2: serializing an Integer value and then deserializing the resulting
stream with any arena yields a Value with the same discriminant and an equal
payload, owned by that arena; likewise for a Bool value. -/
theorem C2_serialization_roundtrip (i : Int) (b : Bool) (mem : Nat) :
    (∃ rest, read_value (write_value BitStream.empty (Value.IntVal i)).1 mem =
        some (rest, Except.ok ⟨mem, Value.IntVal i⟩)) ∧
    (∃ rest, read_value (write_value BitStream.empty (Value.BoolVal b)).1 mem =
        some (rest, Except.ok ⟨mem, Value.BoolVal b⟩)) :=
  ⟨⟨⟨[WireItem.tag ValueType.Integer, WireItem.int32 i], 2⟩, rfl⟩,
   ⟨⟨[WireItem.tag ValueType.Bool, WireItem.boolean b], 2⟩, rfl⟩⟩

/-- C3: serializing a value whose discriminant is neither Integer nor Bool
fails with the `UnsupportedSerialization` condition ("Cannot serialize this
type of value!") and leaves the stream exactly as it was (no byte
committed); deserializing a stream whose next item is a tag that is neither
Integer nor Bool fails with the same condition, and the error result carries
no constructed Value. -/
theorem C3_unsupported_serialization (v : Value) (bs : BitStream) (mem : Nat)
    (t : ValueType) :
    (v.type ≠ ValueType.Integer → v.type ≠ ValueType.Bool →
      write_value bs v =
        (bs, Except.error ⟨"Cannot serialize this type of value!"⟩)) ∧
    (∀ bs1, bs.readTag = some (t, bs1) →
      t ≠ ValueType.Integer → t ≠ ValueType.Bool →
      read_value bs mem =
        some (bs1, Except.error ⟨"Cannot serialize this type of value!"⟩)) := by
  constructor
  · intro h1 h2
    cases v
    case IntVal i => exact absurd rfl h1
    case BoolVal b => exact absurd rfl h2
    all_goals rfl
  · intro bs1 hread h1 h2
    cases t
    case Integer => exact absurd rfl h1
    case Bool => exact absurd rfl h2
    all_goals simp [read_value, hread]

/-- Witness for C3: a Float value cannot be encoded (the stream stays
empty), and a stream tagged Float cannot be decoded. -/
theorem C3_unsupported_serialization_witness :
    (write_value BitStream.empty (Value.FloatVal 0) =
      (BitStream.empty, Except.error ⟨"Cannot serialize this type of value!"⟩)) ∧
    (read_value ⟨[WireItem.tag ValueType.Float], 0⟩ 7 =
      some (⟨[WireItem.tag ValueType.Float], 1⟩,
        Except.error ⟨"Cannot serialize this type of value!"⟩)) :=
  ⟨(C3_unsupported_serialization (Value.FloatVal 0) BitStream.empty 7
      ValueType.Float).1 (by decide) (by decide),
   (C3_unsupported_serialization (Value.FloatVal 0)
      ⟨[WireItem.tag ValueType.Float], 0⟩ 7 ValueType.Float).2
      ⟨[WireItem.tag ValueType.Float], 1⟩ rfl (by decide) (by decide)⟩

/-- C10: when deserialization fails on an unsupported tag, the stream
position has advanced exactly one item — past the tag — while the data is
untouched: the tag is consumed, no payload item is read, and the result is
the error, not a Value. -/
theorem C10_tag_consumed_before_failure (bs : BitStream) (t : ValueType)
    (mem : Nat) (htag : bs.data.get? bs.pos = some (WireItem.tag t))
    (h1 : t ≠ ValueType.Integer) (h2 : t ≠ ValueType.Bool) :
    read_value bs mem =
      some ({ bs with pos := bs.pos + 1 },
        Except.error ⟨"Cannot serialize this type of value!"⟩) := by
  have htag' : bs.data[bs.pos]? = some (WireItem.tag t) := by
    rw [← List.get?_eq_getElem?]
    exact htag
  have hread : bs.readTag = some (t, { bs with pos := bs.pos + 1 }) := by
    simp [BitStream.readTag, htag']
  cases t
  case Integer => exact absurd rfl h1
  case Bool => exact absurd rfl h2
  all_goals simp [read_value, hread]

/-- Witness for C10: decoding a stream holding a Float tag and a payload
item consumes only the tag. -/
theorem C10_tag_consumed_before_failure_witness :
    read_value ⟨[WireItem.tag ValueType.Float, WireItem.int32 5], 0⟩ 7 =
      some (⟨[WireItem.tag ValueType.Float, WireItem.int32 5], 1⟩,
        Except.error ⟨"Cannot serialize this type of value!"⟩) :=
  C10_tag_consumed_before_failure
    ⟨[WireItem.tag ValueType.Float, WireItem.int32 5], 0⟩ ValueType.Float 7
    rfl (by decide) (by decide)

/-- A live handle points inside the heap. -/
theorem get_some_lt_length {α : Type} {l : List α} {n : Nat} {a : α}
    (h : l.get? n = some a) : n < l.length := by
  by_contra hc
  rw [List.get?_eq_none.mpr (Nat.le_of_not_lt hc)] at h
  exact Option.noConfusion h

/-- Every concrete `duplicate` override copies the payload unchanged. -/
theorem dup_payload_eq (v : Value) : dup_payload v = v := by
  cases v <;> rfl

/-- C7: on a live handle, the no-argument `duplicate()` is
`duplicate(memory_manager())` — duplication into the owning arena; and
`duplicate(mem)` produces a fresh value owned by `mem` with identical
discriminant and value-equal payload (the very same payload state), at a new
handle, sharing no mutable storage with the source: mutating the copy's
payload afterwards leaves the source's payload untouched. -/
theorem C7_duplicate_independent (h : Heap) (r mem : Nat) (v : Value)
    (hv : h.valAt r = some v) :
    (h.duplicateNoArg r = h.duplicate r ((h.arenaAt r).getD 0)) ∧
    ((h.duplicate r mem).1.valAt (h.duplicate r mem).2 = some v ∧
     (h.duplicate r mem).1.arenaAt (h.duplicate r mem).2 = some mem ∧
     (h.duplicate r mem).2 ≠ r ∧
     ∀ w, ((h.duplicate r mem).1.setVal (h.duplicate r mem).2 w).valAt r
        = some v) := by
  obtain ⟨a, hget⟩ : ∃ a, h.cells.get? r = some (a, v) := by
    unfold Heap.valAt at hv
    cases hc : h.cells.get? r with
    | none => rw [hc] at hv; exact Option.noConfusion hv
    | some c =>
      obtain ⟨a0, v0⟩ := c
      rw [hc] at hv
      simp only [Option.map] at hv
      rw [Option.some.injEq] at hv
      exact ⟨a0, by rw [hv]⟩

  have hlt : r < h.cells.length := get_some_lt_length hget
  have hdup : h.duplicate r mem = (⟨h.cells ++ [(mem, v)]⟩, h.cells.length) := by
    simp [Heap.duplicate, hv, Heap.alloc, dup_payload_eq]
  have hfresh : (h.cells ++ [(mem, v)]).get? h.cells.length = some (mem, v) := by
    rw [List.get?_eq_getElem?]
    exact List.getElem?_concat_length h.cells (mem, v)
  have hkeep : (h.cells ++ [(mem, v)]).get? r = some (a, v) := by
    rw [List.get?_eq_getElem?, List.getElem?_append_left hlt,
      ← List.get?_eq_getElem?]
    exact hget
  have hne : h.cells.length ≠ r := fun hc => absurd (hc ▸ hlt) (lt_irrefl r)
  refine ⟨?_, ?_, ?_, ?_, ?_⟩
  · have harena : h.arenaAt r = some a := by
      unfold Heap.arenaAt
      rw [hget]
      rfl
    unfold Heap.duplicateNoArg
    rw [harena]
    rfl
  · rw [hdup]
    unfold Heap.valAt
    rw [hfresh]
    rfl
  · rw [hdup]
    unfold Heap.arenaAt
    rw [hfresh]
    rfl
  · rw [hdup]
    exact hne
  · intro w
    rw [hdup]
    unfold Heap.setVal
    dsimp only
    rw [hfresh]
    dsimp only
    by_cases ht : v.type = w.type
    · rw [if_pos ht]
      unfold Heap.valAt
      dsimp only
      rw [List.get?_eq_getElem?, List.getElem?_set_ne hne,
        ← List.get?_eq_getElem?, hkeep]
      rfl
    · rw [if_neg ht]
      unfold Heap.valAt
      dsimp only
      rw [hkeep]
      rfl

/-- Witness for C7: duplicating the string cell of a two-cell heap into
arena 5, then overwriting the copy's payload, leaves the source cell
unchanged. -/
theorem C7_duplicate_independent_witness :
    ((Heap.mk [(1, Value.IntVal 4), (2, Value.StringVal "ab")]).duplicateNoArg 1
        = (Heap.mk [(1, Value.IntVal 4), (2, Value.StringVal "ab")]).duplicate 1 2) ∧
    (((Heap.mk [(1, Value.IntVal 4), (2, Value.StringVal "ab")]).duplicate 1 5).1.valAt
        ((Heap.mk [(1, Value.IntVal 4), (2, Value.StringVal "ab")]).duplicate 1 5).2
        = some (Value.StringVal "ab") ∧
      (((Heap.mk [(1, Value.IntVal 4), (2, Value.StringVal "ab")]).duplicate 1 5).1.setVal
        ((Heap.mk [(1, Value.IntVal 4), (2, Value.StringVal "ab")]).duplicate 1 5).2
        (Value.StringVal "xy")).valAt 1 = some (Value.StringVal "ab")) := by
  have base := C7_duplicate_independent
    (Heap.mk [(1, Value.IntVal 4), (2, Value.StringVal "ab")]) 1 5
    (Value.StringVal "ab") (by decide)
  have harena : ((Heap.mk [(1, Value.IntVal 4), (2, Value.StringVal "ab")]).arenaAt 1).getD 0 = 2 := by
    decide
  exact ⟨harena ▸ base.1, base.2.1, base.2.2.2.2 (Value.StringVal "xy")⟩

/-- C8: the discriminant is fixed for a value's whole lifetime — generically
for the `PlainValue` template, `set` leaves `type()` at the template's
discriminant and a subsequent `get()` returns exactly the payload written;
and in the heap, a payload write through a handle never changes the
discriminant stored at that handle. -/
theorem C8_discriminant_stable (value_type : Type) (vt : ValueType)
    (p : PlainValue value_type vt) (x : value_type) (h : Heap) (r : Nat)
    (w : Value) :
    ((p.set x).type = vt ∧ (p.set x).type = p.type ∧ (p.set x).get = x) ∧
    ((h.setVal r w).valAt r).map Value.type = (h.valAt r).map Value.type := by
  refine ⟨⟨rfl, rfl, rfl⟩, ?_⟩
  unfold Heap.setVal
  cases hc : h.cells.get? r with
  | none => rfl
  | some c =>
    obtain ⟨a, old⟩ := c
    dsimp only
    by_cases ht : old.type = w.type
    · rw [if_pos ht]
      have hlt : r < h.cells.length := get_some_lt_length hc
      have hset : (h.cells.set r (a, w)).get? r = some (a, w) := by
        simp [List.get?_eq_getElem?, List.getElem?_set_self, hlt]
      unfold Heap.valAt
      rw [hset, hc]
      simp [ht]
    · rw [if_neg ht]

end chipy
